import Mathlib

/-!
# SnapprOps payroll core — shallow embedding

A shallow embedding of the payroll core of the SnapprOps HRIS:
the storage layer's `generatePayrollForPeriod`, `getMonthlyAttendance`,
`getBenefits`, `deleteEmployee` (from the `DatabaseStorage` class) and the
`POST /api/payroll/generate` route guard (from `registerRoutes`).

Currency and hour values are embedded as exact rationals (`Rat`); the source
computes with JavaScript numbers and persists through `decimal(10,2)` columns.
Timestamp bookkeeping columns (`createdAt`, `updatedAt`, `generatedAt`) are
not modelled.  SQL `ORDER BY` clauses are not modelled: no proved property
depends on row ordering.
-/

namespace SnapprOps

/-- Row of the `employees` table (schema columns, timestamps omitted).
`salaryType` is a free string in the schema ("hourly" or "monthly" by
convention); the generator branches on equality with "hourly". -/
structure Employee where
  id : Nat
  name : String
  email : String
  position : String
  salaryRate : Rat
  salaryType : String
  department : String
  hireDate : String
  isActive : Bool
deriving DecidableEq, Repr

/-- Row of the `attendance` table (timestamps omitted). `date` is a
"YYYY-MM-DD" day string. -/
structure AttendanceRecord where
  id : Nat
  employeeId : Nat
  date : String
  hoursWorked : Rat
  overtime : Rat
deriving DecidableEq, Repr

/-- Row of the `benefits` table (timestamps omitted). `appliesTo` is a
"YYYY-MM" period string; `type` is a free string. -/
structure Benefit where
  id : Nat
  employeeId : Nat
  type : String
  amount : Rat
  isTaxable : Bool
  appliesTo : String
  description : String
deriving DecidableEq, Repr

/-- Row of the `payroll` table (id and timestamps omitted).  The source
stringifies every numeric before insert; here the fields stay rational. -/
structure Payroll where
  employeeId : Nat
  payPeriod : String
  hoursWorked : Rat
  overtimeHours : Rat
  basePay : Rat
  overtimePay : Rat
  allowances : Rat
  bonuses : Rat
  grossPay : Rat
  sssDeduction : Rat
  philHealthDeduction : Rat
  pagIbigDeduction : Rat
  taxDeduction : Rat
  otherDeductions : Rat
  totalDeductions : Rat
  netPay : Rat
deriving DecidableEq, Repr

/-- The relational store as seen by the payroll core: the four tables the
generator reads or writes. -/
structure DB where
  employees : List Employee
  attendance : List AttendanceRecord
  benefits : List Benefit
  payroll : List Payroll
deriving DecidableEq, Repr

/-- SQL `date_trunc('month', date) = payPeriod::date`: a "YYYY-MM-DD" date
falls in the month named by a "YYYY-MM" token iff its first seven characters
are that token. -/
def dateInPeriod (d payPeriod : String) : Bool :=
  d.take 7 == payPeriod

/-- `DatabaseStorage.getEmployees`: rows of `employees` with
`isActive = true` (the source also orders by name; ordering not modelled). -/
def getEmployees (db : DB) : List Employee :=
  db.employees.filter fun e => e.isActive

/-- `DatabaseStorage.getMonthlyAttendance`: sums of `hoursWorked` and
`overtime` over the employee's attendance rows in the period
(`SUM` of no rows is `NULL`, coerced to `0` by `Number(... || 0)`). -/
def getMonthlyAttendance (atts : List AttendanceRecord) (employeeId : Nat)
    (payPeriod : String) : Rat × Rat :=
  let rs := atts.filter fun a =>
    a.employeeId == employeeId && dateInPeriod a.date payPeriod
  (rs.foldl (fun s a => s + a.hoursWorked) 0,
   rs.foldl (fun s a => s + a.overtime) 0)

/-- `DatabaseStorage.getBenefits` in the branch used by the generator
(both `employeeId` and `payPeriod` given). -/
def getBenefitsFor (bens : List Benefit) (employeeId : Nat)
    (payPeriod : String) : List Benefit :=
  bens.filter fun b => b.employeeId == employeeId && b.appliesTo == payPeriod

/-- `reduce((sum, b) => sum + Number(b.amount), 0)` over a filtered list. -/
def sumAmounts (bs : List Benefit) : Rat :=
  bs.foldl (fun s b => s + b.amount) 0

/-- The loop body of `DatabaseStorage.generatePayrollForPeriod`: the record
computed for one employee from their attendance and benefits for the period.
Mirrors the source line by line; `taxDeduction` is the hardcoded "0". -/
def computePayrollForEmployee (e : Employee) (atts : List AttendanceRecord)
    (bens : List Benefit) (payPeriod : String) : Payroll :=
  let monthlyAttendance := getMonthlyAttendance atts e.id payPeriod
  let employeeBenefits := getBenefitsFor bens e.id payPeriod
  let salaryRate := e.salaryRate
  let basePay := if e.salaryType == "hourly"
    then salaryRate * monthlyAttendance.1
    else salaryRate
  let overtimePay := if e.salaryType == "hourly"
    then salaryRate * 1.5 * monthlyAttendance.2
    else 0
  let allowances := sumAmounts (employeeBenefits.filter fun b =>
    b.type == "Allowance")
  let bonuses := sumAmounts (employeeBenefits.filter fun b =>
    b.type == "Bonus" || b.type == "13th_month")
  let grossPay := basePay + overtimePay + allowances + bonuses
  let sssDeduction := grossPay * 0.045
  let philHealthDeduction := grossPay * 0.045
  let pagIbigDeduction := min (grossPay * 0.02) 100
  let otherDeductions := sumAmounts (employeeBenefits.filter fun b =>
    b.type == "Deduction")
  let totalDeductions :=
    sssDeduction + philHealthDeduction + pagIbigDeduction + otherDeductions
  let netPay := grossPay - totalDeductions
  { employeeId := e.id
    payPeriod := payPeriod
    hoursWorked := monthlyAttendance.1
    overtimeHours := monthlyAttendance.2
    basePay := basePay
    overtimePay := overtimePay
    allowances := allowances
    bonuses := bonuses
    grossPay := grossPay
    sssDeduction := sssDeduction
    philHealthDeduction := philHealthDeduction
    pagIbigDeduction := pagIbigDeduction
    taxDeduction := 0
    otherDeductions := otherDeductions
    totalDeductions := totalDeductions
    netPay := netPay }

/-- `DatabaseStorage.generatePayrollForPeriod`: one record per active
employee, appended to the `payroll` table in a single bulk insert; returns
the new store and the inserted records (the `.returning()` value). -/
def generatePayrollForPeriod (db : DB) (payPeriod : String) :
    DB × List Payroll :=
  let payrollRecords := (getEmployees db).map fun e =>
    computePayrollForEmployee e db.attendance db.benefits payPeriod
  ({ db with payroll := db.payroll ++ payrollRecords }, payrollRecords)

/-- `DatabaseStorage.deleteEmployee`: an UPDATE setting `isActive := false`
on the matching row; no row is removed and no other table is touched. -/
def deleteEmployee (db : DB) (id : Nat) : DB :=
  { db with employees := db.employees.map fun e =>
      if e.id == id then { e with isActive := false } else e }

/-- Outcome of `POST /api/payroll/generate`: a 400 client error or a 201
with the inserted records. -/
inductive GenerateResponse where
  | badRequest
  | generated (recs : List Payroll)
deriving DecidableEq, Repr

/-- The `POST /api/payroll/generate` handler in `registerRoutes`: the body's
`payPeriod` is absent or present; the guard `if (!payPeriod)` rejects exactly
the missing and empty-string cases (JavaScript falsiness for strings), then
generation runs on whatever string remains. -/
def postPayrollGenerate (db : DB) (body : Option String) :
    DB × GenerateResponse :=
  match body with
  | none => (db, GenerateResponse.badRequest)
  | some payPeriod =>
    if payPeriod == "" then (db, GenerateResponse.badRequest)
    else
      let r := generatePayrollForPeriod db payPeriod
      (r.1, GenerateResponse.generated r.2)

/-- Modelled from the spec: well-formedness of a pay-period token, "a
calendar month identifier (`YYYY-MM`)" — four digits, a dash, two digits.
The source has no such check; this definition exists only to name the
spec's notion of a malformed token. -/
def isWellFormedPeriod (s : String) : Bool :=
  s.length == 7
    && (s.toList.take 4).all Char.isDigit
    && ((s.toList.drop 4).take 1 == ['-'])
    && (s.toList.drop 5).all Char.isDigit

/-- Number of payroll rows for a given employee and period. -/
def countFor (recs : List Payroll) (employeeId : Nat) (payPeriod : String) :
    Nat :=
  recs.countP fun r => r.employeeId == employeeId && r.payPeriod == payPeriod

/-- Number of active employee rows carrying a given id. -/
def numActiveWithId (db : DB) (employeeId : Nat) : Nat :=
  (getEmployees db).countP fun e => e.id == employeeId

/-- `calculateIncomeTax` from `payroll-calculations.ts`: the simplified
progressive income-tax utility.  `generatePayrollForPeriod` never calls it —
the batch path stores the literal "0" as `taxDeduction`. -/
def calculateIncomeTax (grossPay : Rat) (exemptions : Rat) : Rat :=
  let taxableIncome := max 0 (grossPay - exemptions)
  if taxableIncome ≤ 20833 then 0
  else if taxableIncome ≤ 33333 then (taxableIncome - 20833) * 0.15
  else if taxableIncome ≤ 66667 then 1875 + (taxableIncome - 33333) * 0.20
  else if taxableIncome ≤ 166667 then
    8541.67 + (taxableIncome - 66667) * 0.25
  else if taxableIncome ≤ 666667 then
    33541.67 + (taxableIncome - 166667) * 0.30
  else 183541.67 + (taxableIncome - 666667) * 0.35

/-- Scenario A employee: hourly, rate 500. -/
def empA : Employee :=
  { id := 1, name := "Alice", email := "alice@snappr.test",
    position := "Photographer", salaryRate := 500, salaryType := "hourly",
    department := "Ops", hireDate := "2020-01-01", isActive := true }

/-- Scenario A attendance: 160 hours worked, 10 overtime hours in 2024-01. -/
def attA : AttendanceRecord :=
  { id := 1, employeeId := 1, date := "2024-01-15",
    hoursWorked := 160, overtime := 10 }

/-- Scenario A store: one active employee, one attendance row, no benefits,
no payroll yet. -/
def dbA : DB :=
  { employees := [empA], attendance := [attA], benefits := [], payroll := [] }

/-- A statutory-typed benefit row for the period, as the benefits UI can
create ("SSS" is among its offered types). -/
def benSSS : Benefit :=
  { id := 1, employeeId := 1, type := "SSS", amount := 500,
    isTaxable := false, appliesTo := "2024-01", description := "" }

theorem countFor_append (a b : List Payroll) (i : Nat) (p : String) :
    countFor (a ++ b) i p = countFor a i p + countFor b i p := by
  simp [countFor, List.countP_append]

theorem countFor_generated (db : DB) (p : String) (i : Nat) :
    countFor (generatePayrollForPeriod db p).2 i p = numActiveWithId db i := by
  simp only [countFor, generatePayrollForPeriod, numActiveWithId,
    List.countP_map]
  congr 1
  funext e
  simp [computePayrollForEmployee, Function.comp]

theorem countFor_run (db : DB) (p : String) (i : Nat) :
    countFor ((generatePayrollForPeriod db p).1).payroll i p
      = countFor db.payroll i p + numActiveWithId db i := by
  have h : ((generatePayrollForPeriod db p).1).payroll
      = db.payroll ++ (generatePayrollForPeriod db p).2 := rfl
  rw [h, countFor_append, countFor_generated]

/-- C1: for every active employee processed by payroll generation for a
period, an hourly employee gets `basePay = salaryRate × totalHours` and
`overtimePay = salaryRate × 1.5 × overtimeHours` (totals summed over the
employee's attendance rows in the period), while a monthly employee gets
`basePay = salaryRate` regardless of hours and `overtimePay = 0`. -/
theorem basePay_overtimePay_by_salaryType (db : DB) (p : String)
    (e : Employee) (he : e ∈ getEmployees db) :
    computePayrollForEmployee e db.attendance db.benefits p
      ∈ (generatePayrollForPeriod db p).2
  ∧ (e.salaryType = "hourly" →
      (computePayrollForEmployee e db.attendance db.benefits p).basePay
        = e.salaryRate * (getMonthlyAttendance db.attendance e.id p).1
    ∧ (computePayrollForEmployee e db.attendance db.benefits p).overtimePay
        = e.salaryRate * 1.5 * (getMonthlyAttendance db.attendance e.id p).2)
  ∧ (e.salaryType = "monthly" →
      (computePayrollForEmployee e db.attendance db.benefits p).basePay
        = e.salaryRate
    ∧ (computePayrollForEmployee e db.attendance db.benefits p).overtimePay
        = 0) := by
  refine ⟨List.mem_map_of_mem _ he, fun h => ?_, fun h => ?_⟩ <;>
    simp +decide [computePayrollForEmployee, h]

/-- Witness for C1: the Scenario A employee is active in `dbA` and the
theorem applies to it. -/
theorem basePay_overtimePay_by_salaryType_witness :
    empA ∈ getEmployees dbA
  ∧ (computePayrollForEmployee empA dbA.attendance dbA.benefits "2024-01"
      ∈ (generatePayrollForPeriod dbA "2024-01").2
    ∧ (empA.salaryType = "hourly" →
        (computePayrollForEmployee empA dbA.attendance dbA.benefits
            "2024-01").basePay
          = empA.salaryRate
              * (getMonthlyAttendance dbA.attendance empA.id "2024-01").1
      ∧ (computePayrollForEmployee empA dbA.attendance dbA.benefits
            "2024-01").overtimePay
          = empA.salaryRate * 1.5
              * (getMonthlyAttendance dbA.attendance empA.id "2024-01").2)
    ∧ (empA.salaryType = "monthly" →
        (computePayrollForEmployee empA dbA.attendance dbA.benefits
            "2024-01").basePay = empA.salaryRate
      ∧ (computePayrollForEmployee empA dbA.attendance dbA.benefits
            "2024-01").overtimePay = 0)) :=
  ⟨(List.mem_singleton_self empA : empA ∈ getEmployees dbA),
   basePay_overtimePay_by_salaryType dbA "2024-01" empA
     (List.mem_singleton_self empA : empA ∈ getEmployees dbA)⟩

/-- C2: every record produced by the batch generation path has
`sssDeduction = grossPay × 0.045`, `philHealthDeduction = grossPay × 0.045`,
`pagIbigDeduction = min(grossPay × 0.02, 100)` and `taxDeduction = 0`
(generation stores a literal zero; `calculateIncomeTax` is never invoked). -/
theorem statutory_deduction_formulas (db : DB) (p : String) (r : Payroll)
    (hr : r ∈ (generatePayrollForPeriod db p).2) :
    r.sssDeduction = r.grossPay * 0.045
  ∧ r.philHealthDeduction = r.grossPay * 0.045
  ∧ r.pagIbigDeduction = min (r.grossPay * 0.02) 100
  ∧ r.taxDeduction = 0 := by
  obtain ⟨e, -, rfl⟩ := List.mem_map.1 hr
  exact ⟨rfl, rfl, rfl, rfl⟩

/-- Witness for C2: the theorem applied to the single record generated from
`dbA` for 2024-01. -/
theorem statutory_deduction_formulas_witness :
    computePayrollForEmployee empA dbA.attendance dbA.benefits "2024-01"
      ∈ (generatePayrollForPeriod dbA "2024-01").2
  ∧ ((computePayrollForEmployee empA dbA.attendance dbA.benefits
        "2024-01").sssDeduction
      = (computePayrollForEmployee empA dbA.attendance dbA.benefits
          "2024-01").grossPay * 0.045
    ∧ (computePayrollForEmployee empA dbA.attendance dbA.benefits
        "2024-01").philHealthDeduction
      = (computePayrollForEmployee empA dbA.attendance dbA.benefits
          "2024-01").grossPay * 0.045
    ∧ (computePayrollForEmployee empA dbA.attendance dbA.benefits
        "2024-01").pagIbigDeduction
      = min ((computePayrollForEmployee empA dbA.attendance dbA.benefits
          "2024-01").grossPay * 0.02) 100
    ∧ (computePayrollForEmployee empA dbA.attendance dbA.benefits
        "2024-01").taxDeduction = 0) :=
  ⟨(List.mem_singleton_self _ :
      computePayrollForEmployee empA dbA.attendance dbA.benefits "2024-01"
        ∈ (generatePayrollForPeriod dbA "2024-01").2),
   statutory_deduction_formulas dbA "2024-01" _
     (List.mem_singleton_self _ :
       computePayrollForEmployee empA dbA.attendance dbA.benefits "2024-01"
         ∈ (generatePayrollForPeriod dbA "2024-01").2)⟩

/-- C3: every generated record satisfies the accounting identities
`grossPay = basePay + overtimePay + allowances + bonuses`,
`totalDeductions = sssDeduction + philHealthDeduction + pagIbigDeduction
+ taxDeduction + otherDeductions` and `netPay = grossPay − totalDeductions`,
exactly (the embedding computes in exact rational arithmetic). -/
theorem payroll_accounting_identities (db : DB) (p : String) (r : Payroll)
    (hr : r ∈ (generatePayrollForPeriod db p).2) :
    r.grossPay = r.basePay + r.overtimePay + r.allowances + r.bonuses
  ∧ r.totalDeductions = r.sssDeduction + r.philHealthDeduction
      + r.pagIbigDeduction + r.taxDeduction + r.otherDeductions
  ∧ r.netPay = r.grossPay - r.totalDeductions := by
  obtain ⟨e, -, rfl⟩ := List.mem_map.1 hr
  refine ⟨rfl, ?_, rfl⟩
  simp [computePayrollForEmployee]

/-- Witness for C3: the identities at the single record generated from
`dbA` for 2024-01. -/
theorem payroll_accounting_identities_witness :
    computePayrollForEmployee empA dbA.attendance dbA.benefits "2024-01"
      ∈ (generatePayrollForPeriod dbA "2024-01").2
  ∧ ((computePayrollForEmployee empA dbA.attendance dbA.benefits
        "2024-01").grossPay
      = (computePayrollForEmployee empA dbA.attendance dbA.benefits
          "2024-01").basePay
        + (computePayrollForEmployee empA dbA.attendance dbA.benefits
            "2024-01").overtimePay
        + (computePayrollForEmployee empA dbA.attendance dbA.benefits
            "2024-01").allowances
        + (computePayrollForEmployee empA dbA.attendance dbA.benefits
            "2024-01").bonuses
    ∧ (computePayrollForEmployee empA dbA.attendance dbA.benefits
        "2024-01").totalDeductions
      = (computePayrollForEmployee empA dbA.attendance dbA.benefits
          "2024-01").sssDeduction
        + (computePayrollForEmployee empA dbA.attendance dbA.benefits
            "2024-01").philHealthDeduction
        + (computePayrollForEmployee empA dbA.attendance dbA.benefits
            "2024-01").pagIbigDeduction
        + (computePayrollForEmployee empA dbA.attendance dbA.benefits
            "2024-01").taxDeduction
        + (computePayrollForEmployee empA dbA.attendance dbA.benefits
            "2024-01").otherDeductions
    ∧ (computePayrollForEmployee empA dbA.attendance dbA.benefits
        "2024-01").netPay
      = (computePayrollForEmployee empA dbA.attendance dbA.benefits
          "2024-01").grossPay
        - (computePayrollForEmployee empA dbA.attendance dbA.benefits
            "2024-01").totalDeductions) :=
  ⟨(List.mem_singleton_self _ :
      computePayrollForEmployee empA dbA.attendance dbA.benefits "2024-01"
        ∈ (generatePayrollForPeriod dbA "2024-01").2),
   payroll_accounting_identities dbA "2024-01" _
     (List.mem_singleton_self _ :
       computePayrollForEmployee empA dbA.attendance dbA.benefits "2024-01"
         ∈ (generatePayrollForPeriod dbA "2024-01").2)⟩

/-- C4: Scenario A — an hourly employee with rate 500, 160 hours worked,
10 overtime hours and no benefits yields exactly basePay 80000, overtimePay
7500, grossPay 87500, sssDeduction 3937.5, philHealthDeduction 3937.5,
pagIbigDeduction 100, totalDeductions 7975 and netPay 79525. -/
theorem scenarioA_exact_values :
    ∃ r, (generatePayrollForPeriod dbA "2024-01").2 = [r]
      ∧ r.basePay = 80000 ∧ r.overtimePay = 7500 ∧ r.grossPay = 87500
      ∧ r.sssDeduction = 3937.5 ∧ r.philHealthDeduction = 3937.5
      ∧ r.pagIbigDeduction = 100 ∧ r.totalDeductions = 7975
      ∧ r.netPay = 79525 := by
  refine ⟨computePayrollForEmployee empA dbA.attendance dbA.benefits
    "2024-01", ?_, ?_, ?_, ?_, ?_, ?_, ?_, ?_, ?_⟩ <;>
    simp +decide [generatePayrollForPeriod, getEmployees,
      computePayrollForEmployee, getMonthlyAttendance, getBenefitsFor,
      sumAmounts, dateInPeriod, dbA, empA, attA] <;>
    norm_num

/-- Counterexample to C5: starting from a store with one active employee and
no payroll rows, running generation twice for 2024-01 leaves two payroll
rows for (employee 1, 2024-01) — the second run silently duplicates. -/
theorem generate_twice_duplicates :
    countFor dbA.payroll 1 "2024-01" = 0
  ∧ countFor ((generatePayrollForPeriod dbA "2024-01").1).payroll 1
      "2024-01" = 1
  ∧ countFor ((generatePayrollForPeriod
      (generatePayrollForPeriod dbA "2024-01").1 "2024-01").1).payroll 1
      "2024-01" = 2 := by
  decide

/-- C5 (amended): generation never checks for existing records — each run
unconditionally appends one record per active employee, so after two runs
for the same period the store holds the original count plus two rows per
active employee with the given id. -/
theorem generate_appends_per_run_no_dedup (db : DB) (i : Nat) (p : String) :
    countFor ((generatePayrollForPeriod
        (generatePayrollForPeriod db p).1 p).1).payroll i p
      = countFor db.payroll i p + 2 * numActiveWithId db i := by
  have h1 := countFor_run db p i
  have h2 := countFor_run (generatePayrollForPeriod db p).1 p i
  have hemp : numActiveWithId (generatePayrollForPeriod db p).1 i
      = numActiveWithId db i := rfl
  omega

/-- Counterexample to C6: "garbage" is a malformed pay-period token
(not `YYYY-MM`), yet the route guard does not reject it — generation runs
and inserts a payroll row. -/
theorem malformed_period_not_rejected :
    isWellFormedPeriod "garbage" = false
  ∧ (postPayrollGenerate dbA (some "garbage")).2
      ≠ GenerateResponse.badRequest
  ∧ ((postPayrollGenerate dbA (some "garbage")).1).payroll
      ≠ dbA.payroll := by
  refine ⟨by decide, ?_, ?_⟩ <;>
    simp [postPayrollGenerate, generatePayrollForPeriod, getEmployees, dbA,
      empA]

/-- C6 (amended): the `POST /api/payroll/generate` guard rejects exactly a
missing or empty pay-period token before any computation; every other token,
well-formed or not, passes the guard and generation proceeds. -/
theorem guard_rejects_only_missing_or_empty (db : DB)
    (body : Option String) :
    (postPayrollGenerate db body).2 = GenerateResponse.badRequest
      ↔ body = none ∨ body = some "" := by
  cases body with
  | none => simp [postPayrollGenerate]
  | some s =>
    by_cases h : s = ""
    · subst h; simp [postPayrollGenerate]
    · simp [postPayrollGenerate, h]

/-- C8: one generation run appends exactly one payroll record per active
employee — in particular none for inactive employees — and leaves the
employees, attendance and benefits tables unchanged. -/
theorem generate_frame_one_record_per_active (db : DB) (p : String) :
    ((generatePayrollForPeriod db p).1).employees = db.employees
  ∧ ((generatePayrollForPeriod db p).1).attendance = db.attendance
  ∧ ((generatePayrollForPeriod db p).1).benefits = db.benefits
  ∧ ((generatePayrollForPeriod db p).1).payroll
      = db.payroll ++ (generatePayrollForPeriod db p).2
  ∧ ((generatePayrollForPeriod db p).2).map (fun r => r.employeeId)
      = (db.employees.filter fun e => e.isActive).map (fun e => e.id) := by
  refine ⟨rfl, rfl, rfl, rfl, ?_⟩
  show ((getEmployees db).map _).map _ = _
  rw [List.map_map]
  rfl

/-- C9: deleting an employee is a soft delete — the employees table keeps
the same length, every row keeps its identity and payroll-relevant fields,
only the matching row's active flag is cleared, and the payroll, attendance
and benefits tables are untouched. -/
theorem deleteEmployee_soft_delete_frame (db : DB) (i : Nat) :
    (deleteEmployee db i).payroll = db.payroll
  ∧ (deleteEmployee db i).attendance = db.attendance
  ∧ (deleteEmployee db i).benefits = db.benefits
  ∧ (deleteEmployee db i).employees.length = db.employees.length
  ∧ ∀ j : Nat,
      match db.employees[j]?, (deleteEmployee db i).employees[j]? with
      | some e, some f =>
          f.id = e.id ∧ f.name = e.name ∧ f.email = e.email
        ∧ f.position = e.position ∧ f.salaryRate = e.salaryRate
        ∧ f.salaryType = e.salaryType ∧ f.department = e.department
        ∧ f.hireDate = e.hireDate
        ∧ f.isActive = (if e.id == i then false else e.isActive)
      | none, none => True
      | _, _ => False := by
  refine ⟨rfl, rfl, rfl, by simp [deleteEmployee], fun j => ?_⟩
  simp only [deleteEmployee, List.getElem?_map]
  cases h : db.employees[j]? with
  | none => simp
  | some e =>
    simp only [Option.map_some']
    by_cases hid : e.id == i
    · simp [hid]
    · simp [hid]

/-- C10: a benefit row typed "SSS", "PhilHealth" or "Pag-IBIG" — creatable
through the benefits UI — has no effect on the payroll record the generator
computes: its categorization reads only the types "Allowance", "Bonus",
"13th_month" and "Deduction", and the statutory fields come from the
percentage formulas on grossPay. -/
theorem statutory_benefit_rows_no_effect (e : Employee)
    (atts : List AttendanceRecord) (bens : List Benefit) (b : Benefit)
    (p : String)
    (hb : b.type = "SSS" ∨ b.type = "PhilHealth" ∨ b.type = "Pag-IBIG") :
    computePayrollForEmployee e atts (b :: bens) p
      = computePayrollForEmployee e atts bens p := by
  obtain h | h | h := hb <;>
  · simp only [computePayrollForEmployee, getBenefitsFor, List.filter_cons]
    cases hc : (b.employeeId == e.id && b.appliesTo == p) <;>
      simp +decide [hc, h]

/-- Witness for C10: adding an "SSS" benefit row that matches the employee
and the period leaves the generated record unchanged. -/
theorem statutory_benefit_rows_no_effect_witness :
    (benSSS.type = "SSS" ∨ benSSS.type = "PhilHealth"
      ∨ benSSS.type = "Pag-IBIG")
  ∧ computePayrollForEmployee empA [attA] (benSSS :: []) "2024-01"
      = computePayrollForEmployee empA [attA] [] "2024-01" :=
  ⟨Or.inl rfl,
   statutory_benefit_rows_no_effect empA [attA] [] benSSS "2024-01"
     (Or.inl rfl)⟩

end SnapprOps
